import Mathlib

/-!
# Verification of the BETSY client logging subsystem and token endpoint

Shallow embedding of the client-side logging subsystem (persistent-store
variant in `Logging`, remote-collector variant in `CLM`) and of the
LiveKit token issuance route handler (`TokenRoute`), with theorems about
the behaviour claimed in the specification.
-/

/-! ## JavaScript value model

A first-order model of the JavaScript values that can be passed as the
`details` argument of a logging call.  `undef` models `undefined` (an
absent optional argument or an omitted field), `func` a function object,
`errObj` an `Error` instance (whose own enumerable properties are empty,
so `JSON.stringify` yields `"{}"`), and `cyclic` an object graph with a
circular reference, on which `JSON.stringify` throws. -/

mutual

inductive JSVal where
| undef : JSVal
| null : JSVal
| bool (b : Bool) : JSVal
| num (n : Int) : JSVal
| str (s : String) : JSVal
| func (fid : Nat) : JSVal
| errObj (name msg stack : String) : JSVal
| cyclic : JSVal
| arr (elems : JSList) : JSVal
| obj (fields : JSFields) : JSVal
deriving DecidableEq

inductive JSList where
| nil : JSList
| cons (hd : JSVal) (tl : JSList) : JSList
deriving DecidableEq

inductive JSFields where
| fnil : JSFields
| fcons (key : String) (val : JSVal) (tl : JSFields) : JSFields
deriving DecidableEq

end

/-- JavaScript truthiness of a `details` value: `undefined`, `null`,
`false`, `0` and `""` are falsy, everything else is truthy. -/
def JSVal.truthy : JSVal → Bool
| .undef => false
| .null => false
| .bool b => b
| .num n => decide (n ≠ 0)
| .str s => decide (s ≠ "")
| _ => true

/-! `rtVal v` models `JSON.parse(JSON.stringify(v))`:
`Except.error ()` means `JSON.stringify` threw (circular reference);
`Except.ok none` means `JSON.stringify` returned `undefined`
(a bare `undefined` or function), in which case `JSON.parse` throws;
`Except.ok (some w)` is the round-tripped value.  Inside an array an
`undefined`-serializing element becomes `null`; inside an object the
key is dropped; an `Error` instance serializes to `{}`. -/

mutual

def rtVal : JSVal → Except Unit (Option JSVal)
| .undef => .ok none
| .null => .ok (some .null)
| .bool b => .ok (some (.bool b))
| .num n => .ok (some (.num n))
| .str s => .ok (some (.str s))
| .func _ => .ok none
| .errObj _ _ _ => .ok (some (.obj .fnil))
| .cyclic => .error ()
| .arr xs =>
  match rtList xs with
  | .error e => .error e
  | .ok ys => .ok (some (.arr ys))
| .obj fs =>
  match rtFields fs with
  | .error e => .error e
  | .ok gs => .ok (some (.obj gs))

def rtList : JSList → Except Unit JSList
| .nil => .ok .nil
| .cons v tl =>
  match rtVal v with
  | .error e => .error e
  | .ok hv =>
    match rtList tl with
    | .error e => .error e
    | .ok htl =>
      match hv with
      | none => .ok (.cons .null htl)
      | some w => .ok (.cons w htl)

def rtFields : JSFields → Except Unit JSFields
| .fnil => .ok .fnil
| .fcons k v tl =>
  match rtVal v with
  | .error e => .error e
  | .ok hv =>
    match rtFields tl with
    | .error e => .error e
    | .ok htl =>
      match hv with
      | none => .ok htl
      | some w => .ok (.fcons k w htl)

end

/-! `jsToString` models the `String(x)` coercion used in the
sanitization fallback.  The source text of a function object is not
observable in the model, so it is rendered as `"function"`. -/

mutual

def jsToString : JSVal → String
| .undef => "undefined"
| .null => "null"
| .bool b => cond b "true" "false"
| .num n => toString n
| .str s => s
| .func _ => "function"
| .cyclic => "[object Object]"
| .errObj n m _ => n ++ ": " ++ m
| .arr xs => jsListToString xs
| .obj _ => "[object Object]"

def jsListToString : JSList → String
| .nil => ""
| .cons v tl =>
  let s :=
    match v with
    | .undef => ""
    | .null => ""
    | w => jsToString w
  match tl with
  | .nil => s
  | .cons v2 tl2 => s ++ "," ++ jsListToString (.cons v2 tl2)

end

/-- The `catch` branch of `sanitizeDetails`: an `Error` instance is
reduced to `{name, message, stack}`, anything else to its string
coercion. -/
def sanFallback : JSVal → JSVal
| .errObj n m s =>
  .obj (.fcons "name" (.str n) (.fcons "message" (.str m)
    (.fcons "stack" (.str s) .fnil)))
| v => .str (jsToString v)

/-- `sanitizeDetails` from both logger variants: a
`JSON.parse(JSON.stringify(details))` round trip; if that throws
(either `stringify` throwing on a cycle, or `parse` throwing because
`stringify` returned `undefined`), fall back to `sanFallback`. -/
def sanitizeDetails (v : JSVal) : JSVal :=
  match rtVal v with
  | .ok (some w) => w
  | .ok none => sanFallback v
  | .error _ => sanFallback v

/-! A plain-JSON value: built only from `null`, booleans, numbers,
strings, arrays and plain objects. -/

mutual

def isPlain : JSVal → Bool
| .null => true
| .bool _ => true
| .num _ => true
| .str _ => true
| .arr xs => isPlainList xs
| .obj fs => isPlainFields fs
| _ => false

def isPlainList : JSList → Bool
| .nil => true
| .cons v tl => isPlain v && isPlainList tl

def isPlainFields : JSFields → Bool
| .fnil => true
| .fcons _ v tl => isPlain v && isPlainFields tl

end

mutual

theorem rtVal_plain (v : JSVal) (h : isPlain v = true) :
    rtVal v = .ok (some v) := by
  match v with
  | .null => rfl
  | .bool b => rfl
  | .num n => rfl
  | .str s => rfl
  | .arr xs =>
    have hxs : isPlainList xs = true := by simpa [isPlain] using h
    simp [rtVal, rtList_plain xs hxs]
  | .obj fs =>
    have hfs : isPlainFields fs = true := by simpa [isPlain] using h
    simp [rtVal, rtFields_plain fs hfs]

theorem rtList_plain (xs : JSList) (h : isPlainList xs = true) :
    rtList xs = .ok xs := by
  match xs with
  | .nil => rfl
  | .cons v tl =>
    have hv : isPlain v = true := by
      have := h; simp [isPlainList, Bool.and_eq_true] at this; exact this.1
    have htl : isPlainList tl = true := by
      have := h; simp [isPlainList, Bool.and_eq_true] at this; exact this.2
    have h1 := rtVal_plain v hv
    have h2 := rtList_plain tl htl
    simp [rtList, h1, h2]

theorem rtFields_plain (fs : JSFields) (h : isPlainFields fs = true) :
    rtFields fs = .ok fs := by
  match fs with
  | .fnil => rfl
  | .fcons k v tl =>
    have hv : isPlain v = true := by
      have := h; simp [isPlainFields, Bool.and_eq_true] at this; exact this.1
    have htl : isPlainFields tl = true := by
      have := h; simp [isPlainFields, Bool.and_eq_true] at this; exact this.2
    have h1 := rtVal_plain v hv
    have h2 := rtFields_plain tl htl
    simp [rtFields, h1, h2]

end

theorem sanitizeDetails_plain (v : JSVal) (h : isPlain v = true) :
    sanitizeDetails v = v := by
  simp [sanitizeDetails, rtVal_plain v h]

/-- C6: the details-sanitization function is idempotent on
already-sanitized values: on every plain-JSON value (built only from
null, booleans, numbers, strings, arrays and plain objects),
sanitization is the identity, hence sanitizing twice equals sanitizing
once. -/
theorem C6_sanitize_idempotent (v : JSVal) (h : isPlain v = true) :
    sanitizeDetails v = v ∧
      sanitizeDetails (sanitizeDetails v) = sanitizeDetails v := by
  have h1 := sanitizeDetails_plain v h
  exact ⟨h1, by rw [h1, h1]⟩

/-- The concrete plain value `{a: 1, b: [1, 2, 3]}`. -/
def sampleDetails : JSVal :=
  .obj (.fcons "a" (.num 1)
    (.fcons "b" (.arr (.cons (.num 1) (.cons (.num 2) (.cons (.num 3) .nil))))
      .fnil))

/-- Witness for C6 at `{a: 1, b: [1, 2, 3]}`. -/
theorem C6_sanitize_idempotent_witness :
    isPlain sampleDetails = true ∧
      (sanitizeDetails sampleDetails = sampleDetails ∧
        sanitizeDetails (sanitizeDetails sampleDetails) =
          sanitizeDetails sampleDetails) :=
  ⟨by simp [sampleDetails, isPlain, isPlainList, isPlainFields],
    C6_sanitize_idempotent sampleDetails
      (by simp [sampleDetails, isPlain, isPlainList, isPlainFields])⟩

/-! ## Persistent-store logger variant

Embedding of `src/lib/logging/types.ts` (the `LogType` enum and
`LogEntry` shape) and of the `Logger` facade of the persistent-store
variant (`subscribe`, `notifyListeners`, `log`, the leveled methods and
`clearLogs`).  The sink (`LogStorage`) is left abstract: each call is
parametrized by the outcome of the one sink operation it performs. -/

namespace Logging

/-- The `LogType` enum of `src/lib/logging/types.ts` (persistent-store
variant): exactly the four members `INFO`, `ERROR`, `SUCCESS`,
`WARNING`. -/
inductive LogType where
| info : LogType
| error : LogType
| success : LogType
| warning : LogType
deriving DecidableEq

/-- The string value each `LogType` enum member is declared with. -/
def LogType.toStr : LogType → String
| .info => "info"
| .error => "error"
| .success => "success"
| .warning => "warning"

/-- The members of the `LogType` enum, in declaration order. -/
def LogType.all : List LogType := [.info, .error, .success, .warning]

theorem LogType.all_complete (t : LogType) : t ∈ LogType.all := by
  cases t <;> simp [LogType.all]

/-- A `LogEntry`.  `details : JSVal` with `JSVal.undef` modelling an
absent `details` field. -/
structure LogEntry where
  id : String
  timestamp : Nat
  type : LogType
  message : String
  details : JSVal
deriving DecidableEq

/-- A registered subscriber callback.  `fid` is the function object's
identity (two registrations of the same callback carry the same `fid`);
`throws` says whether invoking the callback throws. -/
structure Listener where
  fid : Nat
  throws : Bool
deriving DecidableEq

/-- `Logger.subscribe`: pushes the listener onto the list.  (The
returned unsubscribe closure is modelled by `unsubscribe`.) -/
def subscribe (ls : List Listener) (l : Listener) : List Listener :=
  ls ++ [l]

/-- The unsubscribe closure returned by `Logger.subscribe` for
listener `l`: `this.listeners = this.listeners.filter(x => x !== l)`. -/
def unsubscribe (ls : List Listener) (l : Listener) : List Listener :=
  ls.filter (fun x => decide (x ≠ l))

/-- `Logger.notifyListeners`: `this.listeners.forEach(l => l(event))`.
Returns the `fid`s invoked, in order, and whether a listener threw
(aborting the `forEach` and propagating the exception). -/
def notifyListeners : List Listener → List Nat × Bool
| [] => ([], false)
| l :: ls =>
  if l.throws then ([l.fid], true)
  else
    let r := notifyListeners ls
    (l.fid :: r.1, r.2)

/-- The kind of a `LogUpdateEvent`. -/
inductive EvKind where
| add : EvKind
| clear : EvKind
deriving DecidableEq

/-- Observable outcome of one `Logger.log` call: the promise outcome
(`Except.error` = rejected) and the `LogUpdateEvent`s emitted via
`notifyListeners`, in order, each with its optional entry. -/
structure LogOutcome where
  result : Except String LogEntry
  events : List (EvKind × Option LogEntry)

/-- The `catch` branch of `Logger.log`: console fallback, then a
temporary entry with a locally generated id `"temp-" ++ Date.now()`
and unconditionally sanitized details, notified to listeners.  A
listener throwing here escapes the `catch`, so the method rejects. -/
def catchBranch (listeners : List Listener) (nowCatch : Nat) (t : LogType)
    (message : String) (details : JSVal)
    (priorEvents : List (EvKind × Option LogEntry)) : LogOutcome :=
  let temp : LogEntry :=
    ⟨"temp-" ++ toString nowCatch, nowCatch, t, message, sanitizeDetails details⟩
  let r := notifyListeners listeners
  { result := if r.2 then .error "listener threw" else .ok temp,
    events := priorEvents ++ [(.add, some temp)] }

/-- `Logger.log`.  `storeResult` is the outcome of the sink's `store`
call (`.ok id` resolves with the assigned id; `.error` rejects); `now`
is `Date.now()` at candidate-construction time and `nowCatch` is
`Date.now()` inside the `catch` branch.  The candidate's `details`
field is `details ? sanitizeDetails(details) : undefined`. -/
def log (storeResult : Except String String) (listeners : List Listener)
    (now nowCatch : Nat) (t : LogType) (message : String)
    (details : JSVal) : LogOutcome :=
  let entryDetails := if details.truthy then sanitizeDetails details else .undef
  match storeResult with
  | .error _ => catchBranch listeners nowCatch t message details []
  | .ok id =>
    let stored : LogEntry := ⟨id, now, t, message, entryDetails⟩
    let r := notifyListeners listeners
    if r.2 then
      catchBranch listeners nowCatch t message details [(.add, some stored)]
    else
      { result := .ok stored, events := [(.add, some stored)] }

/-- `Logger.info`. -/
def info (storeResult : Except String String) (listeners : List Listener)
    (now nowCatch : Nat) (message : String) (details : JSVal) : LogOutcome :=
  log storeResult listeners now nowCatch .info message details

/-- `Logger.error`. -/
def error (storeResult : Except String String) (listeners : List Listener)
    (now nowCatch : Nat) (message : String) (details : JSVal) : LogOutcome :=
  log storeResult listeners now nowCatch .error message details

/-- `Logger.success`. -/
def success (storeResult : Except String String) (listeners : List Listener)
    (now nowCatch : Nat) (message : String) (details : JSVal) : LogOutcome :=
  log storeResult listeners now nowCatch .success message details

/-- `Logger.warn`. -/
def warn (storeResult : Except String String) (listeners : List Listener)
    (now nowCatch : Nat) (message : String) (details : JSVal) : LogOutcome :=
  log storeResult listeners now nowCatch .warning message details

/-- The names of the public leveled logging methods declared on the
persistent-variant `Logger` facade. -/
def methodNames : List String := ["info", "error", "success", "warn"]

/-- Observable outcome of one `Logger.clearLogs` call.  The method
always resolves (the `catch` swallows both a sink-`clear` rejection and
a listener exception). -/
structure ClearOutcome where
  events : List (EvKind × Option LogEntry)
  notified : List Nat
  rejects : Bool
deriving DecidableEq

/-- `Logger.clearLogs`: awaits the sink's `clear`; only if it resolves
does it notify listeners with a `clear` event; any fault (a sink
rejection or a listener exception) is caught and written to the
console. -/
def clearLogs (clearResult : Except String Unit) (listeners : List Listener) :
    ClearOutcome :=
  match clearResult with
  | .ok _ =>
    { events := [(.clear, none)], notified := (notifyListeners listeners).1,
      rejects := false }
  | .error _ => { events := [], notified := [], rejects := false }

end Logging

/-! ## Remote-collector logger variant

Embedding of `src/lib/logging/logger.ts` (the CLM variant): the
`logTypeToString` helper, the console fallback, and `sendToCLM`, to
which all five leveled methods delegate.  The `fetch` call is
parametrized by its outcome. -/

namespace CLM

/-- The five log levels the collector-variant `Logger` handles: the
cases of its `logTypeToString` switch and its five leveled methods. -/
inductive LogType where
| info : LogType
| error : LogType
| success : LogType
| warning : LogType
| debug : LogType
deriving DecidableEq

/-- `logTypeToString` from `src/lib/logging/logger.ts`. -/
def logTypeToString : LogType → String
| .info => "info"
| .success => "success"
| .warning => "warning"
| .error => "error"
| .debug => "debug"

/-- Outcome of the `fetch` POST: a response with an HTTP status, or a
network-level failure (the fetch promise rejects). -/
inductive FetchRes where
| resp (status : Nat) : FetchRes
| netFail : FetchRes
deriving DecidableEq

/-- `Response.ok`: status in the range 200–299. -/
def respOk (status : Nat) : Bool :=
  decide (200 ≤ status) && decide (status < 300)

/-- The JSON payload `sendToCLM` POSTs to the collector.  The
`details` field is `JSVal.undef` (omitted from the JSON) when the
caller passed none, and the sanitized details otherwise. -/
structure Payload where
  service : String
  level : String
  message : String
  details : JSVal
deriving DecidableEq

/-- `true` exactly on `JSVal.undef`, modelling `x !== undefined`
tests. -/
def JSVal.isUndef : JSVal → Bool
| .undef => true
| _ => false

/-- Observable outcome of one `sendToCLM` call: the POST attempts made
(each with its payload), the number of `console.warn` calls, the
console fallback writes made through `logToConsole` (level, tagged
message, details), and whether the returned promise rejects. -/
structure SendOutcome where
  posts : List Payload
  warns : Nat
  consoleWrites : List (LogType × String × JSVal)
  rejects : Bool
deriving DecidableEq

/-- `sendToCLM`.  `browser`, `configured` and `urlSet` model
`typeof window !== 'undefined'`, `this.isClmConfigured` and
`this.clmUrl` being set; `fetchRes` is the outcome of the single
`fetch`.  A non-ok response logs a `console.warn` and falls back to
the console; a network failure is caught, logs a `console.warn` and
falls back to the console; a 2xx response does nothing more.  The
method never rejects. -/
def sendToCLM (browser configured urlSet : Bool) (fetchRes : FetchRes)
    (level : LogType) (message : String) (details : JSVal) : SendOutcome :=
  if !browser || !configured || !urlSet then
    { posts := [], warns := 0,
      consoleWrites := [(level, "(CLM Disabled) " ++ message, details)],
      rejects := false }
  else
    let payload : Payload :=
      ⟨"client", logTypeToString level, message,
        if JSVal.isUndef details then .undef else sanitizeDetails details⟩
    match fetchRes with
    | .netFail =>
      { posts := [payload], warns := 1,
        consoleWrites := [(level, "(CLM Network Fail) " ++ message, details)],
        rejects := false }
    | .resp status =>
      if respOk status then
        { posts := [payload], warns := 0, consoleWrites := [],
          rejects := false }
      else
        { posts := [payload], warns := 1,
          consoleWrites := [(level, "(CLM Send Fail) " ++ message, details)],
          rejects := false }

/-- `logger.info` of the collector variant. -/
def info (browser configured urlSet : Bool) (fetchRes : FetchRes)
    (message : String) (details : JSVal) : SendOutcome :=
  sendToCLM browser configured urlSet fetchRes .info message details

/-- `logger.error` of the collector variant. -/
def error (browser configured urlSet : Bool) (fetchRes : FetchRes)
    (message : String) (details : JSVal) : SendOutcome :=
  sendToCLM browser configured urlSet fetchRes .error message details

/-- `logger.success` of the collector variant. -/
def success (browser configured urlSet : Bool) (fetchRes : FetchRes)
    (message : String) (details : JSVal) : SendOutcome :=
  sendToCLM browser configured urlSet fetchRes .success message details

/-- `logger.warn` of the collector variant. -/
def warn (browser configured urlSet : Bool) (fetchRes : FetchRes)
    (message : String) (details : JSVal) : SendOutcome :=
  sendToCLM browser configured urlSet fetchRes .warning message details

/-- `logger.debug` of the collector variant. -/
def debug (browser configured urlSet : Bool) (fetchRes : FetchRes)
    (message : String) (details : JSVal) : SendOutcome :=
  sendToCLM browser configured urlSet fetchRes .debug message details

end CLM

/-! ## LiveKit token issuance route

Embedding of the `GET` route handler of `src/unnamed/part_000`. -/

namespace TokenRoute

/-- The JSON body of a token-route response. -/
inductive Body where
| err (msg : String) : Body
| grant (token : String) (url : String) (region : Option String) : Body
deriving DecidableEq

/-- An HTTP response of the route: a status code and a JSON body. -/
structure Resp where
  status : Nat
  body : Body
deriving DecidableEq

/-- JavaScript falsiness of a string-or-null value
(`searchParams.get` returns `null` when absent; `!x` is `true` for
`null` and for the empty string). -/
def strFalsy : Option String → Bool
| none => true
| some s => decide (s = "")

/-- The `GET` handler.  `identity` and `region` are the query
parameters (`none` = absent); `apiKey`, `apiSecret` and `host` are the
server environment values; `gen` is the outcome of
`accessToken.toJwt()` (`.error` = it threw).  Checks run in source
order: missing identity → 400; missing credentials → 500;
token-generation fault → 500; otherwise 200 with
`{token, url: host, region: region || undefined}`. -/
def GET (identity region apiKey apiSecret host : Option String)
    (gen : Except Unit String) : Resp :=
  if strFalsy identity then
    ⟨400, .err "Missing identity parameter"⟩
  else if strFalsy apiKey || strFalsy apiSecret || strFalsy host then
    ⟨500, .err "Missing LiveKit credentials"⟩
  else
    match gen with
    | .error _ => ⟨500, .err "Failed to generate token"⟩
    | .ok jwt =>
      ⟨200, .grant jwt (host.getD "")
        (if strFalsy region then none else region)⟩

end TokenRoute

/-! ## Helper lemmas about subscriber notification -/

namespace Logging

theorem notifyListeners_of_noThrow (ls : List Listener)
    (h : ∀ l ∈ ls, l.throws = false) :
    notifyListeners ls = (ls.map Listener.fid, false) := by
  induction ls with
  | nil => rfl
  | cons l tl ih =>
    have hl : l.throws = false := h l (List.mem_cons_self l tl)
    have htl : ∀ x ∈ tl, x.throws = false := fun x hx =>
      h x (List.mem_cons_of_mem l hx)
    simp [notifyListeners, hl, ih htl]

theorem notifyListeners_fst_mem (ls : List Listener) (n : Nat)
    (hn : n ∈ (notifyListeners ls).1) : n ∈ ls.map Listener.fid := by
  induction ls with
  | nil => simp [notifyListeners] at hn
  | cons l tl ih =>
    by_cases hl : l.throws = true
    · simp [notifyListeners, hl] at hn
      simp [hn]
    · simp [notifyListeners, hl] at hn
      rcases hn with hn | hn
      · simp [hn]
      · exact List.mem_cons_of_mem _ (ih hn)

end Logging

/-! ## Claim theorems -/

/-- C1: for every leveled logging call on the persistent-variant
facade, if the sink's `store` rejects, `log` still resolves (does not
reject) with a temporary entry carrying the locally generated id
`"temp-" ++ Date.now()`, and exactly one `add` subscriber event is
emitted, carrying that entry.  (Subscriber callbacks are assumed not to
throw; a throwing callback is the subject of C3.) -/
theorem C1_store_reject_resolves (e : String) (ls : List Logging.Listener)
    (h : ∀ l ∈ ls, l.throws = false) (now nowCatch : Nat)
    (t : Logging.LogType) (message : String) (details : JSVal) :
    ∃ entry : Logging.LogEntry,
      (Logging.log (.error e) ls now nowCatch t message details).result =
        .ok entry ∧
      entry.id = "temp-" ++ toString nowCatch ∧
      (Logging.log (.error e) ls now nowCatch t message details).events =
        [(.add, some entry)] := by
  refine ⟨⟨"temp-" ++ toString nowCatch, nowCatch, t, message,
    sanitizeDetails details⟩, ?_, rfl, ?_⟩ <;>
    simp [Logging.log, Logging.catchBranch,
      Logging.notifyListeners_of_noThrow ls h]

/-- Witness for C1: a store rejection with one (non-throwing)
subscriber, category `info`, message `"hi"`, details `42`. -/
theorem C1_store_reject_resolves_witness :
    (∀ l ∈ [(⟨7, false⟩ : Logging.Listener)], l.throws = false) ∧
      ∃ entry : Logging.LogEntry,
        (Logging.log (.error "quota") [⟨7, false⟩] 5 9 .info "hi"
          (.num 42)).result = .ok entry ∧
        entry.id = "temp-" ++ toString 9 ∧
        (Logging.log (.error "quota") [⟨7, false⟩] 5 9 .info "hi"
          (.num 42)).events = [(.add, some entry)] :=
  ⟨by decide,
    C1_store_reject_resolves "quota" [⟨7, false⟩] (by decide) 5 9 .info "hi"
      (.num 42)⟩

/-- C8: in the persistent-store variant, a leveled call whose `details`
argument is falsy (for example `0`, `false`, `""` or `null`) stores and
returns an entry whose `details` field is `undefined` (omitted), not
the value passed, because `log` guards sanitization with
`details ? ... : undefined`. -/
theorem C8_falsy_details_dropped (id : String) (ls : List Logging.Listener)
    (h : ∀ l ∈ ls, l.throws = false) (now nowCatch : Nat)
    (t : Logging.LogType) (message : String) (details : JSVal)
    (hd : details.truthy = false) :
    ∃ entry : Logging.LogEntry,
      (Logging.log (.ok id) ls now nowCatch t message details).result =
        .ok entry ∧
      entry.details = .undef ∧ entry.id = id ∧
      (Logging.log (.ok id) ls now nowCatch t message details).events =
        [(.add, some entry)] := by
  refine ⟨⟨id, now, t, message, .undef⟩, ?_, rfl, rfl, ?_⟩ <;>
    simp [Logging.log, hd, Logging.notifyListeners_of_noThrow ls h]

/-- Witness for C8 at `details = 0` (falsy but defined). -/
theorem C8_falsy_details_dropped_witness :
    (∀ l ∈ ([] : List Logging.Listener), l.throws = false) ∧
      (JSVal.num 0).truthy = false ∧
      ∃ entry : Logging.LogEntry,
        (Logging.log (.ok "id-1") [] 3 4 .warning "w" (.num 0)).result =
          .ok entry ∧
        entry.details = .undef ∧ entry.id = "id-1" ∧
        (Logging.log (.ok "id-1") [] 3 4 .warning "w" (.num 0)).events =
          [(.add, some entry)] :=
  ⟨by decide, by decide,
    C8_falsy_details_dropped "id-1" [] (by decide) 3 4 .warning "w" (.num 0)
      (by decide)⟩

/-- C9: in the persistent-store variant, when the sink's `store`
rejects and the caller passed no `details` argument, the temporary
fallback entry returned (and delivered in the `add` event) has
`details` equal to the string `"undefined"`, because the `catch` branch
sanitizes `undefined` unconditionally and `sanitizeDetails` degrades it
via `String(...)` coercion. -/
theorem C9_absent_details_stringified (e : String)
    (ls : List Logging.Listener) (h : ∀ l ∈ ls, l.throws = false)
    (now nowCatch : Nat) (t : Logging.LogType) (message : String) :
    ∃ entry : Logging.LogEntry,
      (Logging.log (.error e) ls now nowCatch t message .undef).result =
        .ok entry ∧
      entry.details = .str "undefined" ∧
      (Logging.log (.error e) ls now nowCatch t message .undef).events =
        [(.add, some entry)] := by
  refine ⟨⟨"temp-" ++ toString nowCatch, nowCatch, t, message,
    .str "undefined"⟩, ?_, rfl, ?_⟩ <;>
    simp [Logging.log, Logging.catchBranch, sanitizeDetails, rtVal,
      sanFallback, jsToString, Logging.notifyListeners_of_noThrow ls h]

/-- Witness for C9: store rejects, no details passed. -/
theorem C9_absent_details_stringified_witness :
    (∀ l ∈ ([] : List Logging.Listener), l.throws = false) ∧
      ∃ entry : Logging.LogEntry,
        (Logging.log (.error "down") [] 1 2 .error "boom" .undef).result =
          .ok entry ∧
        entry.details = .str "undefined" ∧
        (Logging.log (.error "down") [] 1 2 .error "boom" .undef).events =
          [(.add, some entry)] :=
  ⟨by decide,
    C9_absent_details_stringified "down" [] (by decide) 1 2 .error "boom"⟩

/-- C2 counterexample: in the persistent-store variant the claim's
five-value enumeration does not exist — the `LogType` enum and the
facade's leveled methods number four, and none of them is `debug`. -/
theorem C2_counterexample :
    "debug" ∉ Logging.methodNames ∧ Logging.methodNames.length = 4 ∧
      "debug" ∉ Logging.LogType.all.map Logging.LogType.toStr ∧
      Logging.LogType.all.length = 4 := by decide

/-- C2 (amended): the persistent-variant category enumeration is the
closed four-value set {info, error, success, warning}; each category
has a matching leveled facade method delegating to `log`, and calling
it produces exactly one stored-or-fallback entry whose category equals
the category invoked (subscriber callbacks assumed non-throwing). -/
theorem C2_four_categories (sr : Except String String)
    (ls : List Logging.Listener) (h : ∀ l ∈ ls, l.throws = false)
    (now nowCatch : Nat) (m : String) (d : JSVal) :
    (Logging.info sr ls now nowCatch m d =
        Logging.log sr ls now nowCatch .info m d ∧
      Logging.error sr ls now nowCatch m d =
        Logging.log sr ls now nowCatch .error m d ∧
      Logging.success sr ls now nowCatch m d =
        Logging.log sr ls now nowCatch .success m d ∧
      Logging.warn sr ls now nowCatch m d =
        Logging.log sr ls now nowCatch .warning m d) ∧
    (∀ t : Logging.LogType, t ∈ Logging.LogType.all) ∧
    ∀ t : Logging.LogType, ∃ entry : Logging.LogEntry,
      (Logging.log sr ls now nowCatch t m d).result = .ok entry ∧
      entry.type = t ∧ entry.message = m ∧
      (Logging.log sr ls now nowCatch t m d).events =
        [(.add, some entry)] := by
  refine ⟨⟨rfl, rfl, rfl, rfl⟩, Logging.LogType.all_complete, fun t => ?_⟩
  cases sr with
  | ok id =>
    refine ⟨⟨id, now, t, m,
      if d.truthy then sanitizeDetails d else .undef⟩, ?_, rfl, rfl, ?_⟩ <;>
      simp [Logging.log, Logging.notifyListeners_of_noThrow ls h]
  | error e =>
    refine ⟨⟨"temp-" ++ toString nowCatch, nowCatch, t, m,
      sanitizeDetails d⟩, ?_, rfl, rfl, ?_⟩ <;>
      simp [Logging.log, Logging.catchBranch,
        Logging.notifyListeners_of_noThrow ls h]

/-- Witness for C2 (amended): one `success` call with a stored id. -/
theorem C2_four_categories_witness :
    (∀ l ∈ ([] : List Logging.Listener), l.throws = false) ∧
      ((Logging.info (.ok "a") [] 0 1 "m" .null =
          Logging.log (.ok "a") [] 0 1 .info "m" .null ∧
        Logging.error (.ok "a") [] 0 1 "m" .null =
          Logging.log (.ok "a") [] 0 1 .error "m" .null ∧
        Logging.success (.ok "a") [] 0 1 "m" .null =
          Logging.log (.ok "a") [] 0 1 .success "m" .null ∧
        Logging.warn (.ok "a") [] 0 1 "m" .null =
          Logging.log (.ok "a") [] 0 1 .warning "m" .null) ∧
      (∀ t : Logging.LogType, t ∈ Logging.LogType.all) ∧
      ∀ t : Logging.LogType, ∃ entry : Logging.LogEntry,
        (Logging.log (.ok "a") [] 0 1 t "m" .null).result = .ok entry ∧
        entry.type = t ∧ entry.message = "m" ∧
        (Logging.log (.ok "a") [] 0 1 t "m" .null).events =
          [(.add, some entry)]) :=
  ⟨by decide, C2_four_categories (.ok "a") [] (by decide) 0 1 "m" .null⟩

/-- C3 counterexample: with subscriber 0 registered first and throwing,
subscriber 1 (later in registration order) is not invoked — the
`forEach` aborts. -/
theorem C3_counterexample :
    Logging.notifyListeners [⟨0, true⟩, ⟨1, false⟩] = ([0], true) ∧
      1 ∉ (Logging.notifyListeners [⟨0, true⟩, ⟨1, false⟩]).1 := by decide

/-- C3 (amended): a throwing subscriber stops the notification loop:
the subscribers registered before it are invoked in registration
order, it is invoked, no subscriber after it is invoked, and the
exception propagates out of `notifyListeners`. -/
theorem C3_throwing_listener_stops (ls₁ ls₂ : List Logging.Listener)
    (l : Logging.Listener) (h₁ : ∀ x ∈ ls₁, x.throws = false)
    (h₂ : l.throws = true) :
    Logging.notifyListeners (ls₁ ++ l :: ls₂) =
      (ls₁.map Logging.Listener.fid ++ [l.fid], true) := by
  induction ls₁ with
  | nil => simp [Logging.notifyListeners, h₂]
  | cons x tl ih =>
    have hx : x.throws = false := h₁ x (List.mem_cons_self x tl)
    have htl : ∀ y ∈ tl, y.throws = false := fun y hy =>
      h₁ y (List.mem_cons_of_mem x hy)
    simp [Logging.notifyListeners, hx, ih htl]

/-- Witness for C3 (amended): listeners 5, 6 (throws), 7. -/
theorem C3_throwing_listener_stops_witness :
    (∀ x ∈ [(⟨5, false⟩ : Logging.Listener)], x.throws = false) ∧
      (⟨6, true⟩ : Logging.Listener).throws = true ∧
      Logging.notifyListeners
          ([⟨5, false⟩] ++ (⟨6, true⟩ : Logging.Listener) :: [⟨7, false⟩]) =
        ([Logging.Listener.fid ⟨5, false⟩] ++ [Logging.Listener.fid ⟨6, true⟩],
          true) :=
  ⟨by decide, by decide,
    C3_throwing_listener_stops [⟨5, false⟩] [⟨7, false⟩] ⟨6, true⟩
      (by decide) (by decide)⟩

/-- C4 counterexample: when the sink's `clear` rejects, `clearLogs`
emits no event at all — not the one `clear` event the claim requires
unconditionally. -/
theorem C4_counterexample :
    (Logging.clearLogs (.error "clear failed") []).events = [] := by decide

/-- C4 (amended): `clearLogs` always resolves and never emits an `add`
event; it emits exactly one `clear` event when the sink's `clear`
resolves (including a no-op sink), but emits no event when the sink's
`clear` rejects (the fault is only written to the console). -/
theorem C4_clear_event_policy (cr : Except String Unit)
    (ls : List Logging.Listener) :
    (Logging.clearLogs cr ls).rejects = false ∧
      (∀ u, cr = Except.ok u →
        (Logging.clearLogs cr ls).events = [(.clear, none)]) ∧
      (∀ e, cr = Except.error e → (Logging.clearLogs cr ls).events = []) ∧
      (∀ ev ∈ (Logging.clearLogs cr ls).events,
        ev.1 = Logging.EvKind.clear) := by
  cases cr <;> simp [Logging.clearLogs]

/-- Witness for C4 (amended): a resolving `clear` emits the one
`clear` event. -/
theorem C4_clear_event_policy_witness :
    (Logging.clearLogs (.ok ()) []).events = [(.clear, none)] :=
  (C4_clear_event_policy (.ok ()) []).2.1 () rfl

/-- C10: registering the same callback (same function identity) twice
and invoking the unsubscribe closure of either registration removes
every registration of that function — removal filters the whole list by
identity, it is not reference-counted — after which the callback's
`fid` appears in no further notification.  The hypothesis states that
`fid` determines the listener (two registrations of one function object
agree on all fields). -/
theorem C10_unsubscribe_removes_all (ls₀ : List Logging.Listener)
    (l : Logging.Listener) (h : ∀ x ∈ ls₀, x.fid = l.fid → x = l) :
    Logging.unsubscribe (Logging.subscribe (Logging.subscribe ls₀ l) l) l =
        Logging.unsubscribe ls₀ l ∧
      l ∉ Logging.unsubscribe (Logging.subscribe (Logging.subscribe ls₀ l) l)
          l ∧
      (Logging.unsubscribe (Logging.subscribe (Logging.subscribe ls₀ l) l)
          l).countP (fun x => decide (x = l)) = 0 ∧
      l.fid ∉ (Logging.notifyListeners (Logging.unsubscribe
        (Logging.subscribe (Logging.subscribe ls₀ l) l) l)).1 := by
  have key : Logging.unsubscribe
      (Logging.subscribe (Logging.subscribe ls₀ l) l) l =
        Logging.unsubscribe ls₀ l := by
    simp [Logging.subscribe, Logging.unsubscribe, List.filter_append]
  refine ⟨key, ?_, ?_, ?_⟩
  · rw [key]
    intro hm
    exact absurd rfl (of_decide_eq_true (List.mem_filter.mp hm).2)
  · rw [key]
    refine List.countP_eq_zero.mpr fun x hx => ?_
    have hne : x ≠ l := of_decide_eq_true (List.mem_filter.mp hx).2
    simpa using hne
  · rw [key]
    intro hmem
    have hmap := Logging.notifyListeners_fst_mem _ _ hmem
    rcases List.mem_map.mp hmap with ⟨x, hx, hfid⟩
    have hx0 : x ∈ ls₀ := (List.mem_filter.mp hx).1
    have hne : x ≠ l := of_decide_eq_true (List.mem_filter.mp hx).2
    exact hne (h x hx0 hfid)

/-- Witness for C10: callback 2 registered twice on top of `[1]`. -/
theorem C10_unsubscribe_removes_all_witness :
    (∀ x ∈ [(⟨1, false⟩ : Logging.Listener)],
        x.fid = (⟨2, false⟩ : Logging.Listener).fid → x = ⟨2, false⟩) ∧
      (Logging.unsubscribe (Logging.subscribe
          (Logging.subscribe [⟨1, false⟩] ⟨2, false⟩) ⟨2, false⟩)
          ⟨2, false⟩ = Logging.unsubscribe [⟨1, false⟩] ⟨2, false⟩ ∧
        (⟨2, false⟩ : Logging.Listener) ∉ Logging.unsubscribe
          (Logging.subscribe (Logging.subscribe [⟨1, false⟩] ⟨2, false⟩)
            ⟨2, false⟩) ⟨2, false⟩ ∧
        (Logging.unsubscribe (Logging.subscribe
          (Logging.subscribe [⟨1, false⟩] ⟨2, false⟩) ⟨2, false⟩)
          ⟨2, false⟩).countP
            (fun x => decide (x = (⟨2, false⟩ : Logging.Listener))) = 0 ∧
        (⟨2, false⟩ : Logging.Listener).fid ∉
          (Logging.notifyListeners (Logging.unsubscribe (Logging.subscribe
            (Logging.subscribe [⟨1, false⟩] ⟨2, false⟩) ⟨2, false⟩)
            ⟨2, false⟩)).1) :=
  ⟨by decide, C10_unsubscribe_removes_all [⟨1, false⟩] ⟨2, false⟩ (by decide)⟩

/-- The concrete details value `{code: 1}`. -/
def codeDetails : JSVal := .obj (.fcons "code" (.num 1) .fnil)

/-- C5: in the remote-collector variant every leveled call delegates to
`sendToCLM`, which performs at most one outbound POST; when the
collector is reachable and returns a non-2xx status, exactly one POST
was attempted, one `console.warn` is emitted together with a console
fallback of the original message, and there is no retry; a
network-level fetch failure is caught, so the call never rejects. -/
theorem C5_at_most_one_post (browser configured urlSet : Bool)
    (fr : CLM.FetchRes) (level : CLM.LogType) (m : String) (d : JSVal) :
    (CLM.info browser configured urlSet fr m d =
        CLM.sendToCLM browser configured urlSet fr .info m d ∧
      CLM.error browser configured urlSet fr m d =
        CLM.sendToCLM browser configured urlSet fr .error m d ∧
      CLM.success browser configured urlSet fr m d =
        CLM.sendToCLM browser configured urlSet fr .success m d ∧
      CLM.warn browser configured urlSet fr m d =
        CLM.sendToCLM browser configured urlSet fr .warning m d ∧
      CLM.debug browser configured urlSet fr m d =
        CLM.sendToCLM browser configured urlSet fr .debug m d) ∧
    (CLM.sendToCLM browser configured urlSet fr level m d).posts.length ≤ 1 ∧
    (CLM.sendToCLM browser configured urlSet fr level m d).rejects = false ∧
    (∀ s, fr = .resp s → CLM.respOk s = false → browser = true →
      configured = true → urlSet = true →
      (CLM.sendToCLM browser configured urlSet fr level m d).warns = 1 ∧
      (CLM.sendToCLM browser configured urlSet fr level m d).consoleWrites =
        [(level, "(CLM Send Fail) " ++ m, d)] ∧
      (CLM.sendToCLM browser configured urlSet fr level m d).posts.length =
        1) ∧
    (fr = .netFail → browser = true → configured = true → urlSet = true →
      (CLM.sendToCLM browser configured urlSet fr level m d).warns = 1 ∧
      (CLM.sendToCLM browser configured urlSet fr level m d).consoleWrites =
        [(level, "(CLM Network Fail) " ++ m, d)] ∧
      (CLM.sendToCLM browser configured urlSet fr level m d).posts.length =
        1) := by
  refine ⟨⟨rfl, rfl, rfl, rfl, rfl⟩, ?_⟩
  cases fr with
  | netFail =>
    cases browser <;> cases configured <;> cases urlSet <;>
      simp [CLM.sendToCLM]
  | resp s =>
    cases browser <;> cases configured <;> cases urlSet <;>
      by_cases hok : CLM.respOk s = true <;>
      simp [CLM.sendToCLM, hok]

/-- Witness for C5, the spec's scenario: collector configured, endpoint
answers HTTP 500 on `error("x", {code: 1})`: one POST, one warning, a
console fallback, and no rejection. -/
theorem C5_at_most_one_post_witness :
    CLM.respOk 500 = false ∧
      (CLM.sendToCLM true true true (.resp 500) .error "x" codeDetails).warns
          = 1 ∧
      (CLM.sendToCLM true true true (.resp 500) .error "x"
          codeDetails).consoleWrites =
        [(.error, "(CLM Send Fail) " ++ "x", codeDetails)] ∧
      (CLM.sendToCLM true true true (.resp 500) .error "x"
          codeDetails).posts.length = 1 :=
  ⟨by decide,
    (C5_at_most_one_post true true true (.resp 500) .error "x"
      codeDetails).2.2.2.1 500 rfl (by decide) rfl rfl rfl⟩

/-- C7: the token-issuance `GET` handler returns 400 with an error body
when the identity query parameter is absent; 500 with an error body
when identity is present but an API key, API secret or host credential
is absent; 500 with an error body when token generation throws; and
otherwise 200 with a body carrying the token string, the host as `url`,
and a `region` field only when a region parameter was supplied. -/
theorem C7_token_responses (identity region apiKey apiSecret host :
    Option String) (gen : Except Unit String) :
    (identity = none →
      TokenRoute.GET identity region apiKey apiSecret host gen =
        ⟨400, .err "Missing identity parameter"⟩) ∧
    (TokenRoute.strFalsy identity = false →
      (apiKey = none ∨ apiSecret = none ∨ host = none) →
      TokenRoute.GET identity region apiKey apiSecret host gen =
        ⟨500, .err "Missing LiveKit credentials"⟩) ∧
    (TokenRoute.strFalsy identity = false →
      (TokenRoute.strFalsy apiKey || TokenRoute.strFalsy apiSecret ||
        TokenRoute.strFalsy host) = false →
      gen = .error () →
      TokenRoute.GET identity region apiKey apiSecret host gen =
        ⟨500, .err "Failed to generate token"⟩) ∧
    (∀ jwt, TokenRoute.strFalsy identity = false →
      (TokenRoute.strFalsy apiKey || TokenRoute.strFalsy apiSecret ||
        TokenRoute.strFalsy host) = false →
      gen = .ok jwt →
      ∃ reg, TokenRoute.GET identity region apiKey apiSecret host gen =
        ⟨200, .grant jwt (host.getD "") reg⟩ ∧
        (reg.isSome = true → region.isSome = true)) := by
  refine ⟨?_, ?_, ?_, ?_⟩
  · intro h
    subst h
    simp [TokenRoute.GET, TokenRoute.strFalsy]
  · intro h1 h2
    have hcred : (TokenRoute.strFalsy apiKey || TokenRoute.strFalsy apiSecret
        || TokenRoute.strFalsy host) = true := by
      rcases h2 with h | h | h <;> subst h <;> simp [TokenRoute.strFalsy]
    simp [TokenRoute.GET, h1, hcred]
  · intro h1 h2 h3
    subst h3
    simp [TokenRoute.GET, h1, h2]
  · intro jwt h1 h2 h3
    subst h3
    refine ⟨if TokenRoute.strFalsy region then none else region, ?_, ?_⟩
    · simp [TokenRoute.GET, h1, h2]
    · by_cases hr : TokenRoute.strFalsy region = true
      · simp [hr]
      · simp [hr]

/-- Witness for C7: a well-formed request with a region produces the
200 grant. -/
theorem C7_token_responses_witness :
    TokenRoute.strFalsy (some "alice") = false ∧
      (TokenRoute.strFalsy (some "key") || TokenRoute.strFalsy (some "sec")
        || TokenRoute.strFalsy (some "wss://h")) = false ∧
      ∃ reg, TokenRoute.GET (some "alice") (some "eu-west-2") (some "key")
          (some "sec") (some "wss://h") (.ok "jwt-1") =
        ⟨200, .grant "jwt-1" ((some "wss://h").getD "") reg⟩ ∧
        (reg.isSome = true → (some "eu-west-2").isSome = true) :=
  ⟨by decide, by decide,
    (C7_token_responses (some "alice") (some "eu-west-2") (some "key")
      (some "sec") (some "wss://h") (.ok "jwt-1")).2.2.2 "jwt-1"
      (by decide) (by decide) rfl⟩
